import Mathlib

/-!
Verification of the `iot-hub` infrastructure stack declaration
(`src/infra/infra/infra_stack.py`).

The stack is a single declarative construction: evaluating
`InfraStack.__init__` with a deployment environment (account, region)
produces a resource graph.  We embed that evaluation shallowly: each
construct call becomes a Lean definition carrying exactly the fields the
source sets, and `infraStack env` is the list of declared resources in
source order.  Strings interpolated from `self.account` / `self.region`
become functions of the environment; everything else is literal.

Text braces in AWS policy variables are written with `\x7b` / `\x7d`
escapes.
-/

/-- Deployment environment of a stack evaluation: the values that
`self.account` and `self.region` take in f-string interpolations. -/
structure Env where
  account : String
  region : String
deriving DecidableEq, Repr

/-- The removal policy as used by the stack (only `DESTROY` appears; `RETAIN`
is the construct-library default for stateful resources). -/
inductive RemovalPolicy where
  | destroy
  | retain
deriving DecidableEq, Repr

/-- One statement of an IAM resource policy (as built by
`iam.PolicyStatement`): effect, actions, resources, principals and a list
of `(operator, key, value)` conditions. -/
structure IamStatement where
  effect : String
  actions : List String
  resources : List String
  principals : List String
  conditions : List (String × String × String)
deriving DecidableEq, Repr

/-- The S3 bucket declaration (`s3.Bucket`), including the resource policy
later installed by `add_to_resource_policy`. -/
structure Bucket where
  bucketName : String
  removalPolicy : RemovalPolicy
  autoDeleteObjects : Bool
  blockPublicAccess : String
  resourcePolicy : List IamStatement
deriving DecidableEq, Repr

/-- Configuration of `cloudfront.CfnOriginAccessControl`. -/
structure OriginAccessControl where
  logicalId : String
  name : String
  originAccessControlOriginType : String
  signingBehavior : String
  signingProtocol : String
deriving DecidableEq, Repr

/-- One origin of the CloudFront distribution. -/
structure Origin where
  domainName : String
  id : String
  originAccessIdentity : String
  originAccessControlId : String
deriving DecidableEq, Repr

/-- The `DefaultCacheBehaviorProperty` of the distribution. -/
structure DefaultCacheBehavior where
  targetOriginId : String
  viewerProtocolPolicy : String
  allowedMethods : List String
  cachedMethods : List String
  compress : Bool
  forwardQueryString : Bool
  forwardCookies : String
deriving DecidableEq, Repr

/-- Configuration of `cloudfront.CfnDistribution`. -/
structure Distribution where
  logicalId : String
  enabled : Bool
  defaultRootObject : String
  origins : List Origin
  defaultCacheBehavior : DefaultCacheBehavior
deriving DecidableEq, Repr

/-- A `lambda.Function` declaration: runtime, handler, code asset and the
environment variable mapping. -/
structure LambdaFunction where
  logicalId : String
  runtime : String
  handler : String
  codeAsset : String
  environment : List (String × String)
deriving DecidableEq, Repr

/-- An SSM parameter import
(`from_secure_string_parameter_attributes` / `from_string_parameter_attributes`):
path-like name, whether it is secret-typed, and a pinned version if any. -/
structure SsmParameter where
  logicalId : String
  parameterName : String
  secure : Bool
  version : Option Nat
deriving DecidableEq, Repr

/-- Access level of a grant. -/
inductive Access where
  | read
  | write
deriving DecidableEq, Repr

/-- One `grant_read`-style grant of a named parameter to a grantee. -/
structure Grant where
  parameterName : String
  granteeId : String
  access : Access
deriving DecidableEq, Repr

/-- One method on a REST resource (`add_method`). -/
structure RestMethod where
  httpMethod : String
  integrationTarget : String
  authorizationType : String
  usesAuthorizer : Bool
deriving DecidableEq, Repr

/-- One REST resource path (`add_resource`). -/
structure RestResource where
  pathPart : String
  methods : List RestMethod
deriving DecidableEq, Repr

/-- An `apigateway.RestApi` declaration with its CORS preflight options and
the resource tree added below the root. -/
structure RestApi where
  logicalId : String
  restApiName : String
  description : String
  corsAllowOrigins : String
  corsAllowMethods : String
  corsExtraHeaders : List String
  resources : List RestResource
deriving DecidableEq, Repr

/-- A `cognito.UserPool` declaration. -/
structure UserPool where
  logicalId : String
  selfSignUpEnabled : Bool
  signInAliasEmail : Bool
  autoVerifyEmail : Bool
  accountRecovery : String
  mfa : String
  mfaSms : Bool
  mfaOtp : Bool
  removalPolicy : RemovalPolicy
deriving DecidableEq, Repr

/-- The app client added by `user_pool.add_client`; token validities are
in seconds (`Duration.hours 1 = 3600`). -/
structure UserPoolClient where
  logicalId : String
  authFlowUserSrp : Bool
  authFlowUserPassword : Bool
  authFlowAdminUserPassword : Bool
  idTokenValiditySeconds : Nat
  accessTokenValiditySeconds : Nat
  refreshTokenValiditySeconds : Nat
  enableTokenRevocation : Bool
deriving DecidableEq, Repr

/-- An `apigateway.CognitoUserPoolsAuthorizer`. -/
structure Authorizer where
  logicalId : String
  userPools : List String
  identitySource : String
deriving DecidableEq, Repr

/-- An `iot.CfnThing`: the registered device identity. -/
structure Thing where
  logicalId : String
  thingName : String
deriving DecidableEq, Repr

/-- One statement of the IoT policy document: effect, granted actions and
the resource pattern (interpolated from the environment in the source). -/
structure IotStatement where
  effect : String
  actions : List String
  resource : String
deriving DecidableEq, Repr

/-- An `iot.CfnPolicy` with its policy document. -/
structure IotPolicy where
  logicalId : String
  policyName : String
  documentVersion : String
  statements : List IotStatement
deriving DecidableEq, Repr

/-- An `iot.CfnPolicyPrincipalAttachment`. -/
structure PolicyPrincipalAttachment where
  logicalId : String
  policyName : String
  principal : String
deriving DecidableEq, Repr

/-- An `iot.CfnThingPrincipalAttachment`. -/
structure ThingPrincipalAttachment where
  logicalId : String
  thingName : String
  principal : String
deriving DecidableEq, Repr

/-- A named `CfnOutput`. -/
structure StackOutput where
  name : String
  value : String
deriving DecidableEq, Repr

/-- A node of the evaluated resource graph. -/
inductive Resource where
  | bucket (b : Bucket)
  | originAccessControl (o : OriginAccessControl)
  | distribution (d : Distribution)
  | bucketDeployment (sourceAsset : String) (destinationBucket : String)
  | lambdaFunction (f : LambdaFunction)
  | ssmParameter (p : SsmParameter)
  | restApi (a : RestApi)
  | userPool (u : UserPool)
  | userPoolClient (c : UserPoolClient)
  | authorizer (a : Authorizer)
  | thing (t : Thing)
  | iotPolicy (p : IotPolicy)
  | policyPrincipalAttachment (a : PolicyPrincipalAttachment)
  | thingPrincipalAttachment (a : ThingPrincipalAttachment)
deriving DecidableEq, Repr

/-- The CloudFormation `Ref` token of a Cfn resource, by logical id. -/
def refOf (logicalId : String) : String :=
  "<Ref " ++ logicalId ++ ">"

/-- The CloudFormation `GetAtt` token of a resource attribute. -/
def getAtt (logicalId : String) (attrName : String) : String :=
  "<GetAtt " ++ logicalId ++ "." ++ attrName ++ ">"

/-- Model of `bucket.arn_for_objects(pattern)`: the object-level ARN of the bucket. -/
def arnForObjects (bucketName : String) (pattern : String) : String :=
  "arn:aws:s3:::" ++ bucketName ++ "/" ++ pattern

/-- Model of `bucket.bucket_regional_domain_name`. -/
def bucketRegionalDomainName (bucketName : String) (region : String) : String :=
  bucketName ++ ".s3." ++ region ++ ".amazonaws.com"

/-- The `CfnOriginAccessControl` declared as `"OAC"`. -/
def oac : OriginAccessControl :=
  { logicalId := "OAC"
    name := "OAC-iot-hub-Frontend"
    originAccessControlOriginType := "s3"
    signingBehavior := "always"
    signingProtocol := "sigv4" }

/-- The `CfnDistribution` declared as `"WebsiteDistribution"`. -/
def distribution (env : Env) : Distribution :=
  { logicalId := "WebsiteDistribution"
    enabled := true
    defaultRootObject := "index.html"
    origins :=
      [{ domainName := bucketRegionalDomainName "iot-hub-frontend-cloudfront" env.region
         id := "S3Origin"
         originAccessIdentity := ""
         originAccessControlId := refOf oac.logicalId }]
    defaultCacheBehavior :=
      { targetOriginId := "S3Origin"
        viewerProtocolPolicy := "redirect-to-https"
        allowedMethods := ["GET", "HEAD", "OPTIONS"]
        cachedMethods := ["GET", "HEAD"]
        compress := true
        forwardQueryString := false
        forwardCookies := "none" } }

/-- The bucket policy statement installed by `add_to_resource_policy`:
CloudFront may `s3:GetObject`, conditioned on the source ARN being the
declared distribution. -/
def bucketPolicyStatement (env : Env) : IamStatement :=
  { effect := "Allow"
    actions := ["s3:GetObject"]
    resources := [arnForObjects "iot-hub-frontend-cloudfront" "*"]
    principals := ["cloudfront.amazonaws.com"]
    conditions :=
      [("StringEquals", "AWS:SourceArn",
        "arn:aws:cloudfront::" ++ env.account ++ ":distribution/"
          ++ refOf (distribution env).logicalId)] }

/-- The hosting bucket `"FrontendWebsiteBucket"` with the resource policy
added to it. -/
def websiteBucket (env : Env) : Bucket :=
  { bucketName := "iot-hub-frontend-cloudfront"
    removalPolicy := RemovalPolicy.destroy
    autoDeleteObjects := true
    blockPublicAccess := "BLOCK_ALL"
    resourcePolicy := [bucketPolicyStatement env] }

/-- The `set-led` Lambda function `"SetLedLambdaGo"`. -/
def setLedLambda : LambdaFunction :=
  { logicalId := "SetLedLambdaGo"
    runtime := "PROVIDED_AL2"
    handler := "bootstrap"
    codeAsset := "../backend/set_led_go"
    environment :=
      [("MQTT_USERNAME_SSM", "/iot/mqtt/username"),
       ("MQTT_PASSWORD_SSM", "/iot/mqtt/password"),
       ("MQTT_BROKER_SSM", "/iot/mqtt/broker")] }

/-- The SSM parameter import `"UsernameParam"` (secure, version 1). -/
def usernameParam : SsmParameter :=
  { logicalId := "UsernameParam"
    parameterName := "/iot/mqtt/username"
    secure := true
    version := some 1 }

/-- The SSM parameter import `"PasswordParam"` (secure, version 1). -/
def passwordParam : SsmParameter :=
  { logicalId := "PasswordParam"
    parameterName := "/iot/mqtt/password"
    secure := true
    version := some 1 }

/-- The SSM parameter import `"BrokerParam"` (plain string, no pinned
version). -/
def brokerParam : SsmParameter :=
  { logicalId := "BrokerParam"
    parameterName := "/iot/mqtt/broker"
    secure := false
    version := none }

/-- The grants produced by the loop
`for param in (username_param, password_param, broker_param): param.grant_read(set_led_lambda)`. -/
def stackGrants : List Grant :=
  [usernameParam, passwordParam, brokerParam].map fun p =>
    { parameterName := p.parameterName
      granteeId := setLedLambda.logicalId
      access := Access.read }

/-- The Cognito user pool `"IoTHubUserPool"`. -/
def userPool : UserPool :=
  { logicalId := "IoTHubUserPool"
    selfSignUpEnabled := false
    signInAliasEmail := true
    autoVerifyEmail := true
    accountRecovery := "EMAIL_ONLY"
    mfa := "REQUIRED"
    mfaSms := false
    mfaOtp := true
    removalPolicy := RemovalPolicy.destroy }

/-- The app client `"IoTHubAppClient"` (all token validities are
`Duration.hours 1`, i.e. 3600 seconds). -/
def userPoolClient : UserPoolClient :=
  { logicalId := "IoTHubAppClient"
    authFlowUserSrp := true
    authFlowUserPassword := true
    authFlowAdminUserPassword := true
    idTokenValiditySeconds := 3600
    accessTokenValiditySeconds := 3600
    refreshTokenValiditySeconds := 3600
    enableTokenRevocation := true }

/-- The Cognito authorizer `"IoTHubAuthorizer"`. -/
def iotHubAuthorizer : Authorizer :=
  { logicalId := "IoTHubAuthorizer"
    userPools := [userPool.logicalId]
    identitySource := "method.request.header.Authorization" }

/-- The REST API `"IoTHubAPI"` with the `/set-led` resource and its single
secured `POST` method. -/
def iotHubApi : RestApi :=
  { logicalId := "IoTHubAPI"
    restApiName := "IoT Hub API"
    description := "IoT Hub API"
    corsAllowOrigins := "ALL_ORIGINS"
    corsAllowMethods := "ALL_METHODS"
    corsExtraHeaders := ["Accept", "Authorization"]
    resources :=
      [{ pathPart := "set-led"
         methods :=
           [{ httpMethod := "POST"
              integrationTarget := setLedLambda.logicalId
              authorizationType := "COGNITO"
              usesAuthorizer := true }] }] }

/-- The `iot.CfnThing` `"EspThing"`. -/
def espThing : Thing :=
  { logicalId := "EspThing"
    thingName := "esp8266-001" }

/-- The connect-statement resource of the device policy:
`arn:aws:iot:{region}:{account}:client/${iot:Connection.Thing.ThingName}`. -/
def connectResource (env : Env) : String :=
  "arn:aws:iot:" ++ env.region ++ ":" ++ env.account
    ++ ":client/$\x7biot:Connection.Thing.ThingName\x7d"

/-- The subscribe/receive-statement resource of the device policy:
`arn:aws:iot:{region}:{account}:topicfilter/esp8266/commands/#`. -/
def commandTopicResource (env : Env) : String :=
  "arn:aws:iot:" ++ env.region ++ ":" ++ env.account
    ++ ":topicfilter/esp8266/commands/#"

/-- The `iot.CfnPolicy` `"EspPolicy"` with its two-statement document. -/
def espPolicy (env : Env) : IotPolicy :=
  { logicalId := "EspPolicy"
    policyName := "EspPolicy"
    documentVersion := "2012-10-17"
    statements :=
      [{ effect := "Allow"
         actions := ["iot:Connect"]
         resource := connectResource env },
       { effect := "Allow"
         actions := ["iot:Subscribe", "iot:Receive"]
         resource := commandTopicResource env }] }

/-- The fixed pre-existing device credential referenced by `cert_arn`. -/
def certArn : String :=
  "arn:aws:iot:eu-central-1:362554412840:cert/a6a16362059843b24e67a99ec569ef8301005a7dcad0794376cb4561c53f72de"

/-- The `CfnPolicyPrincipalAttachment` `"AttachPol"`. -/
def attachPol (env : Env) : PolicyPrincipalAttachment :=
  { logicalId := "AttachPol"
    policyName := refOf (espPolicy env).logicalId
    principal := certArn }

/-- The `CfnThingPrincipalAttachment` `"AttachThing"`. -/
def attachThing : ThingPrincipalAttachment :=
  { logicalId := "AttachThing"
    thingName := refOf espThing.logicalId
    principal := certArn }

/-- The resource graph produced by evaluating `InfraStack.__init__` with
environment `env`, in source order. -/
def infraStack (env : Env) : List Resource :=
  [Resource.bucket (websiteBucket env),
   Resource.originAccessControl oac,
   Resource.distribution (distribution env),
   Resource.bucketDeployment "../frontend/iot-hub/build" "iot-hub-frontend-cloudfront",
   Resource.lambdaFunction setLedLambda,
   Resource.ssmParameter usernameParam,
   Resource.ssmParameter passwordParam,
   Resource.ssmParameter brokerParam,
   Resource.restApi iotHubApi,
   Resource.userPool userPool,
   Resource.userPoolClient userPoolClient,
   Resource.authorizer iotHubAuthorizer,
   Resource.thing espThing,
   Resource.iotPolicy (espPolicy env),
   Resource.policyPrincipalAttachment (attachPol env),
   Resource.thingPrincipalAttachment attachThing]

/-- The four `CfnOutput` declarations at the end of the stack. -/
def stackOutputs : List StackOutput :=
  [{ name := "CloudFrontURL",
     value := "https://" ++ getAtt "WebsiteDistribution" "DomainName" },
   { name := "ApiURL", value := getAtt "IoTHubAPI" "Url" },
   { name := "UserPoolId", value := refOf "IoTHubUserPool" },
   { name := "UserPoolClientId", value := refOf "IoTHubAppClient" }]

/-- Whether a resource node is a bucket. -/
def isBucket : Resource → Bool
  | Resource.bucket _ => true
  | _ => false

/-- Whether a resource node is an origin-access-control resource. -/
def isOriginAccessControl : Resource → Bool
  | Resource.originAccessControl _ => true
  | _ => false

/-- Whether a resource node is a distribution. -/
def isDistribution : Resource → Bool
  | Resource.distribution _ => true
  | _ => false

/-- Whether a resource node is a serverless function. -/
def isLambdaFunction : Resource → Bool
  | Resource.lambdaFunction _ => true
  | _ => false

/-- Whether a resource node is a REST API. -/
def isRestApi : Resource → Bool
  | Resource.restApi _ => true
  | _ => false

/-- Whether a resource node is a user pool. -/
def isUserPool : Resource → Bool
  | Resource.userPool _ => true
  | _ => false

/-- Whether a resource node is a user-pool app client. -/
def isUserPoolClient : Resource → Bool
  | Resource.userPoolClient _ => true
  | _ => false

/-- Whether a resource node is a device identity. -/
def isThing : Resource → Bool
  | Resource.thing _ => true
  | _ => false

/-- Whether a resource node is a device policy. -/
def isIotPolicy : Resource → Bool
  | Resource.iotPolicy _ => true
  | _ => false

/-- Whether a resource node is a policy-principal attachment. -/
def isPolicyPrincipalAttachment : Resource → Bool
  | Resource.policyPrincipalAttachment _ => true
  | _ => false

/-- Whether a resource node is a thing-principal attachment. -/
def isThingPrincipalAttachment : Resource → Bool
  | Resource.thingPrincipalAttachment _ => true
  | _ => false

/-- The credential principal bound by a principal-attachment node, if the
node is one. -/
def attachedPrincipal : Resource → Option String
  | Resource.policyPrincipalAttachment a => some a.principal
  | Resource.thingPrincipalAttachment a => some a.principal
  | _ => none

/-- All buckets of a resource graph. -/
def bucketsOf (g : List Resource) : List Bucket :=
  g.filterMap fun r => match r with
    | Resource.bucket b => some b
    | _ => none

/-- All distributions of a resource graph. -/
def distributionsOf (g : List Resource) : List Distribution :=
  g.filterMap fun r => match r with
    | Resource.distribution d => some d
    | _ => none

/-- All REST APIs of a resource graph. -/
def restApisOf (g : List Resource) : List RestApi :=
  g.filterMap fun r => match r with
    | Resource.restApi a => some a
    | _ => none

/-- All SSM parameter imports of a resource graph. -/
def ssmParametersOf (g : List Resource) : List SsmParameter :=
  g.filterMap fun r => match r with
    | Resource.ssmParameter p => some p
    | _ => none

/-- All device policies of a resource graph. -/
def iotPoliciesOf (g : List Resource) : List IotPolicy :=
  g.filterMap fun r => match r with
    | Resource.iotPolicy p => some p
    | _ => none

/-- All policy-principal attachments of a resource graph. -/
def policyAttachmentsOf (g : List Resource) : List PolicyPrincipalAttachment :=
  g.filterMap fun r => match r with
    | Resource.policyPrincipalAttachment a => some a
    | _ => none

/-- All thing-principal attachments of a resource graph. -/
def thingAttachmentsOf (g : List Resource) : List ThingPrincipalAttachment :=
  g.filterMap fun r => match r with
    | Resource.thingPrincipalAttachment a => some a
    | _ => none

/-- The removal directive a resource node declares, when it declares one
(only the bucket and the user pool set one in the source). -/
def removalDirective : Resource → Option RemovalPolicy
  | Resource.bucket b => some b.removalPolicy
  | Resource.userPool u => some u.removalPolicy
  | _ => none

/-- The self-referencing thing-name policy variable
`${iot:Connection.Thing.ThingName}`. -/
def thingNameClaim : String := "$\x7biot:Connection.Thing.ThingName\x7d"

/-- C1: evaluating the stack with any (hence the default) inputs yields
exactly one bucket, one distribution, one origin-access-control resource,
one function, one REST API whose graph has one resource path with exactly
one method, one user directory, one app client, one device identity, one
device policy, one thing-principal attachment and one policy-principal
attachment both binding the single credential `certArn`, and exactly four
named outputs. -/
theorem c1_default_evaluation_counts (env : Env) :
    ((infraStack env).countP isBucket = 1 ∧
     (infraStack env).countP isDistribution = 1 ∧
     (infraStack env).countP isOriginAccessControl = 1 ∧
     (infraStack env).countP isLambdaFunction = 1) ∧
    ((infraStack env).countP isRestApi = 1 ∧
     (restApisOf (infraStack env)).map
       (fun a => a.resources.map (fun r => r.methods.length)) = [[1]]) ∧
    ((infraStack env).countP isUserPool = 1 ∧
     (infraStack env).countP isUserPoolClient = 1 ∧
     (infraStack env).countP isThing = 1 ∧
     (infraStack env).countP isIotPolicy = 1) ∧
    ((infraStack env).countP isThingPrincipalAttachment = 1 ∧
     (infraStack env).countP isPolicyPrincipalAttachment = 1 ∧
     (infraStack env).filterMap attachedPrincipal = [certArn, certArn]) ∧
    (stackOutputs.length = 4 ∧
     stackOutputs.map StackOutput.name =
       ["CloudFrontURL", "ApiURL", "UserPoolId", "UserPoolClientId"]) :=
  ⟨⟨rfl, rfl, rfl, rfl⟩, ⟨rfl, rfl⟩, ⟨rfl, rfl, rfl, rfl⟩,
   ⟨rfl, rfl, rfl⟩, ⟨rfl, rfl⟩⟩

/-- C2: in the evaluated device policy the connect statement's resource
contains the self-referencing thing-name claim and (whenever the inputs
themselves contain no wildcard) no `*` wildcard at all; the only actions
granted are connect, and subscribe/receive on the fixed
`esp8266/commands` topic namespace; and no statement grants a publish
action. -/
theorem c2_device_policy_scoping (env : Env)
    (hr : '*' ∉ env.region.data) (ha : '*' ∉ env.account.data) :
    ((espPolicy env).statements.map IotStatement.actions =
       [["iot:Connect"], ["iot:Subscribe", "iot:Receive"]]) ∧
    ((espPolicy env).statements.map IotStatement.resource =
       [connectResource env, commandTopicResource env]) ∧
    (thingNameClaim.data <:+: (connectResource env).data) ∧
    ('*' ∉ (connectResource env).data) ∧
    ("topicfilter/esp8266/commands/#".data <:+: (commandTopicResource env).data) ∧
    (∀ s ∈ (espPolicy env).statements, "iot:Publish" ∉ s.actions) := by
  refine ⟨rfl, rfl, ?_, ?_, ?_, ?_⟩
  · have hsuf : thingNameClaim.data <:+
        (":client/$\x7biot:Connection.Thing.ThingName\x7d" : String).data := by decide
    have happ : (":client/$\x7biot:Connection.Thing.ThingName\x7d" : String).data <:+
        (connectResource env).data := by
      simp only [connectResource, String.data_append]
      exact List.suffix_append _ _
    exact (hsuf.trans happ).isInfix
  · simp only [connectResource, String.data_append, List.mem_append, not_or]
    refine ⟨⟨⟨⟨by decide, hr⟩, by decide⟩, ha⟩, by decide⟩
  · have hsuf : "topicfilter/esp8266/commands/#".data <:+
        (":topicfilter/esp8266/commands/#" : String).data := by decide
    have happ : (":topicfilter/esp8266/commands/#" : String).data <:+
        (commandTopicResource env).data := by
      simp only [commandTopicResource, String.data_append]
      exact List.suffix_append _ _
    exact (hsuf.trans happ).isInfix
  · intro s hs
    simp only [espPolicy, List.mem_cons, List.not_mem_nil, or_false] at hs
    rcases hs with h | h <;> subst h
    · exact (by decide : "iot:Publish" ∉ (["iot:Connect"] : List String))
    · exact (by decide :
        "iot:Publish" ∉ (["iot:Subscribe", "iot:Receive"] : List String))

/-- Witness for C2 at the concrete environment
(account 362554412840, region eu-central-1). -/
theorem c2_device_policy_scoping_witness :
    ('*' ∉ (Env.mk "362554412840" "eu-central-1").region.data) ∧
    ('*' ∉ (Env.mk "362554412840" "eu-central-1").account.data) ∧
    ('*' ∉ (connectResource (Env.mk "362554412840" "eu-central-1")).data) :=
  ⟨by decide, by decide,
   (c2_device_policy_scoping (Env.mk "362554412840" "eu-central-1")
     (by decide) (by decide)).2.2.2.1⟩

/-- C3: the only bucket in the evaluated graph carries a resource policy
of exactly one statement, whose only principal is the CloudFront service
principal, whose only action is `s3:GetObject`, conditioned on the source
ARN being the declared distribution (the graph's one distribution, with
logical id `WebsiteDistribution`). -/
theorem c3_bucket_policy_single_statement (env : Env) :
    (bucketsOf (infraStack env)).map Bucket.resourcePolicy =
      [[{ effect := "Allow"
          actions := ["s3:GetObject"]
          resources := [arnForObjects "iot-hub-frontend-cloudfront" "*"]
          principals := ["cloudfront.amazonaws.com"]
          conditions := [("StringEquals", "AWS:SourceArn",
            "arn:aws:cloudfront::" ++ env.account ++ ":distribution/"
              ++ refOf "WebsiteDistribution")] }]] ∧
    (distributionsOf (infraStack env)).map Distribution.logicalId =
      ["WebsiteDistribution"] :=
  ⟨rfl, rfl⟩

/-- C4: the function's environment mapping is exactly the three keys with
the three parameter-store paths as values, and every value is the name of
a parameter imported from the external store (an indirection, not a
literal secret). -/
theorem c4_lambda_environment_indirections (env : Env) :
    setLedLambda.environment =
      [("MQTT_USERNAME_SSM", "/iot/mqtt/username"),
       ("MQTT_PASSWORD_SSM", "/iot/mqtt/password"),
       ("MQTT_BROKER_SSM", "/iot/mqtt/broker")] ∧
    setLedLambda.environment.map Prod.snd =
      (ssmParametersOf (infraStack env)).map SsmParameter.parameterName :=
  ⟨rfl, rfl⟩

/-- C5: the granted parameter names are exactly the values referenced by
the function's declared environment, every grant is read-level (none is
write), and every grantee is the function. -/
theorem c5_grants_least_privilege :
    stackGrants.map Grant.parameterName = setLedLambda.environment.map Prod.snd ∧
    stackGrants.map Grant.access = [Access.read, Access.read, Access.read] ∧
    stackGrants.map Grant.granteeId =
      [setLedLambda.logicalId, setLedLambda.logicalId, setLedLambda.logicalId] :=
  ⟨rfl, rfl, rfl⟩

/-- C6: self-signup is disabled, MFA is required with app-based one-time
codes as the only second factor (SMS disabled), and the app client's
identity-, access- and refresh-token lifetimes are each at most one hour
(3600 seconds). -/
theorem c6_identity_provider_hardening :
    userPool.selfSignUpEnabled = false ∧
    userPool.mfa = "REQUIRED" ∧
    userPool.mfaOtp = true ∧
    userPool.mfaSms = false ∧
    userPoolClient.idTokenValiditySeconds ≤ 3600 ∧
    userPoolClient.accessTokenValiditySeconds ≤ 3600 ∧
    userPoolClient.refreshTokenValiditySeconds ≤ 3600 := by
  decide

/-- C7: the distribution's default cache behavior allows and caches only
methods among GET, HEAD and OPTIONS, forwards neither cookies nor query
strings, compresses responses, and redirects insecure requests to HTTPS. -/
theorem c7_cache_behavior_safe_methods (env : Env) :
    (distribution env).defaultCacheBehavior.allowedMethods ⊆
      ["GET", "HEAD", "OPTIONS"] ∧
    (distribution env).defaultCacheBehavior.cachedMethods ⊆
      ["GET", "HEAD", "OPTIONS"] ∧
    (distribution env).defaultCacheBehavior.forwardCookies = "none" ∧
    (distribution env).defaultCacheBehavior.forwardQueryString = false ∧
    (distribution env).defaultCacheBehavior.compress = true ∧
    (distribution env).defaultCacheBehavior.viewerProtocolPolicy =
      "redirect-to-https" := by
  refine ⟨?_, ?_, rfl, rfl, rfl, rfl⟩
  · show (["GET", "HEAD", "OPTIONS"] : List String) ⊆ ["GET", "HEAD", "OPTIONS"]
    decide
  · show (["GET", "HEAD"] : List String) ⊆ ["GET", "HEAD", "OPTIONS"]
    decide

/-- C8: the stack imports exactly three named parameters:
`/iot/mqtt/username` and `/iot/mqtt/password` secret-typed and pinned to
version 1, and `/iot/mqtt/broker` plain-typed with no pinned version. -/
theorem c8_parameter_imports (env : Env) :
    (ssmParametersOf (infraStack env)).map
        (fun p => (p.parameterName, p.secure, p.version)) =
      [("/iot/mqtt/username", true, some 1),
       ("/iot/mqtt/password", true, some 1),
       ("/iot/mqtt/broker", false, none)] :=
  rfl

/-- C9: the bucket declares removal policy destroy with automatic object
deletion, and this destructive removal is not confined to the user
directory: a non-user-pool resource of the graph (the bucket) declares
destroy as well. -/
theorem c9_destructive_removal_not_confined (env : Env) :
    (websiteBucket env).removalPolicy = RemovalPolicy.destroy ∧
    (websiteBucket env).autoDeleteObjects = true ∧
    userPool.removalPolicy = RemovalPolicy.destroy ∧
    (∃ r ∈ infraStack env, isUserPool r = false ∧
      removalDirective r = some RemovalPolicy.destroy) :=
  ⟨rfl, rfl, rfl,
   ⟨Resource.bucket (websiteBucket env), List.mem_cons_self _ _, rfl, rfl⟩⟩

/-- C10: in any two evaluations of the stack, the policy-principal
attachment of the first and the thing-principal attachment of the second
bind the same fixed literal credential `certArn`, independent of account
and region; by contrast the device policy's own resource ARNs do differ
between evaluations. -/
theorem c10_fixed_credential_principal (e1 e2 : Env) :
    ((policyAttachmentsOf (infraStack e1)).map
        PolicyPrincipalAttachment.principal = [certArn] ∧
     (thingAttachmentsOf (infraStack e2)).map
        ThingPrincipalAttachment.principal = [certArn]) ∧
    (∃ f1 f2 : Env,
      (iotPoliciesOf (infraStack f1)).map
          (fun p => p.statements.map IotStatement.resource) ≠
      (iotPoliciesOf (infraStack f2)).map
          (fun p => p.statements.map IotStatement.resource)) := by
  refine ⟨⟨rfl, rfl⟩, Env.mk "111111111111" "eu-central-1",
    Env.mk "222222222222" "eu-central-1", ?_⟩
  decide
